import Mathlib

/-!
Shallow embedding of the MinHook-based `HardHook` component
(`src/overlay/HardHook_minhook.cpp` of the Sophira/mumble repository).

Modelling conventions:

* Function addresses (`voidFunc`, `LPVOID`) are modelled as `Ptr := Option Nat`;
  `none` stands for the C `NULL` pointer, `some a` for a non-null address `a`.
* The MinHook backend is an external collaborator (spec section 6).  Its calls
  are recorded as events, and its responses — the `MH_STATUS` results of
  `MH_CreateHook` / `MH_EnableHook` / `MH_DisableHook` and the trampoline
  written through the out-parameter — are supplied as explicit oracle
  arguments to the operations.  Per the spec's interface
  `createRedirection(target, replacement) -> (trampoline, status)`, the
  out-parameter `call` is written exactly when the create step returns
  `MH_OK`.
* The diagnostic sink `fods` is recorded as an `Event.log` carrying the
  formatted message string.
* The process-wide guard `minhook_init_once` (a `LONG` driven by
  `InterlockedCompareExchange`) is modelled as explicit global state; the
  embedding is sequential, so the CAS is the plain test-and-set it performs
  in any interleaving-free execution.
-/

/-- Status enumeration `MH_STATUS` of MinHook, exactly the values enumerated by
`minhook_status_string` in the source. -/
inductive MH_STATUS where
  | MH_UNKNOWN
  | MH_OK
  | MH_ERROR_ALREADY_INITIALIZED
  | MH_ERROR_NOT_INITIALIZED
  | MH_ERROR_ALREADY_CREATED
  | MH_ERROR_NOT_CREATED
  | MH_ERROR_ENABLED
  | MH_ERROR_DISABLED
  | MH_ERROR_NOT_EXECUTABLE
  | MH_ERROR_UNSUPPORTED_FUNCTION
  | MH_ERROR_MEMORY_ALLOC
  | MH_ERROR_MEMORY_PROTECT
deriving DecidableEq, Repr

open MH_STATUS

/-- A function address: `none` is `NULL`, `some a` a non-null address. -/
def Ptr := Option Nat
deriving DecidableEq, Repr

/-- Function `minhook_status_string`: human-readable name of an `MH_STATUS`.  The C
switch covers every enumerator, so the `"(unknown)"` fallback after the
switch is unreachable for well-typed statuses and does not appear here. -/
def minhook_status_string : MH_STATUS → String
  | MH_UNKNOWN => "MH_UNKNOWN"
  | MH_OK => "MH_OK"
  | MH_ERROR_ALREADY_INITIALIZED => "MH_ERROR_ALREADY_INITIALIZED"
  | MH_ERROR_NOT_INITIALIZED => "MH_ERROR_NOT_INITIALIZED"
  | MH_ERROR_ALREADY_CREATED => "MH_ERROR_ALREADY_CREATED"
  | MH_ERROR_NOT_CREATED => "MH_ERROR_NOT_CREATED"
  | MH_ERROR_ENABLED => "MH_ERROR_ENABLED"
  | MH_ERROR_DISABLED => "MH_ERROR_DISABLED"
  | MH_ERROR_NOT_EXECUTABLE => "MH_ERROR_NOT_EXECUTABLE"
  | MH_ERROR_UNSUPPORTED_FUNCTION => "MH_ERROR_UNSUPPORTED_FUNCTION"
  | MH_ERROR_MEMORY_ALLOC => "MH_ERROR_MEMORY_ALLOC"
  | MH_ERROR_MEMORY_PROTECT => "MH_ERROR_MEMORY_PROTECT"

/-- Observable effects of a `HardHook` operation: calls into the MinHook
backend, and messages handed to the diagnostic sink `fods`. -/
inductive Event where
  /-- The backend call `MH_Initialize()`. -/
  | initBackend
  /-- The backend call `MH_CreateHook(target, replacement, &call)`. -/
  | createHook (target replacement : Ptr)
  /-- The backend call `MH_EnableHook(target)`. -/
  | enableHook (target : Ptr)
  /-- The backend call `MH_DisableHook(target)`. -/
  | disableHook (target : Ptr)
  /-- A formatted message handed to the diagnostic sink `fods`. -/
  | log (msg : String)
deriving DecidableEq, Repr

/-- The fields of class `HardHook`: `m_func`, `m_replacement` and the
trampoline out-parameter `call` (all of C type `voidFunc`). -/
structure HardHook where
  m_func : Ptr
  m_replacement : Ptr
  call : Ptr
deriving DecidableEq, Repr

/-- Message of `fods` when `MH_CreateHook` fails inside `setup`. -/
def setupCreateFailMsg (status : MH_STATUS) : String :=
  "HardHook: setup failed, MH_CreateHook returned " ++ minhook_status_string status

/-- Message of `fods` when `MH_EnableHook` fails inside `setup`. -/
def setupEnableFailMsg (status : MH_STATUS) : String :=
  "HardHook: setup failed, MH_EnableHook returned " ++ minhook_status_string status

/-- Message of `fods` when `MH_EnableHook` fails inside `inject`. -/
def injectFailMsg (status : MH_STATUS) : String :=
  "HardHook: inject() failed: MH_EnableHook returned " ++ minhook_status_string status

/-- Message of `fods` when `MH_DisableHook` fails inside `restore`. -/
def restoreFailMsg (status : MH_STATUS) : String :=
  "HardHook: restore() failed: MH_DisableHook returned " ++ minhook_status_string status

/-- Diagnostic record emitted by `setupInterface`, from the format string
`"HardHook: setupInterface: Replacing %p function #%ld"`. -/
def setupInterfaceMsg (unkn : Nat) (funcoffset : Nat) : String :=
  "HardHook: setupInterface: Replacing " ++ toString unkn
    ++ " function #" ++ toString funcoffset

/-- Method `HardHook::setup(func, replacement)`.

Calls `MH_CreateHook((LPVOID) func, (LPVOID) replacement, (LPVOID *) &call)`,
logging on a non-`MH_OK` status, then calls `MH_EnableHook((LPVOID) m_func)`
— note: the member `m_func`, not the argument `func` — logging on a
non-`MH_OK` status.  The backend's responses are the oracle arguments
`createStatus`, `tramp` (the trampoline written through `&call` when the
create step returns `MH_OK`) and `enableStatus`. -/
def HardHook.setup (h : HardHook) (func replacement : Ptr)
    (createStatus : MH_STATUS) (tramp : Ptr) (enableStatus : MH_STATUS) :
    HardHook × List Event :=
  ({ h with call := if createStatus = MH_OK then tramp else h.call },
    [Event.createHook func replacement]
      ++ (if createStatus = MH_OK then []
          else [Event.log (setupCreateFailMsg createStatus)])
      ++ [Event.enableHook h.m_func]
      ++ (if enableStatus = MH_OK then []
          else [Event.log (setupEnableFailMsg enableStatus)]))

/-- Method `HardHook::setupInterface(unkn, funcoffset, replacement)`.

Logs the diagnostic record, dereferences the object (`ptr = *(void **) unkn`)
to reach its dispatch table — modelled by the explicit list `table` of the
table's slots, with `unkn` the object address appearing in the log — reads
slot `funcoffset` (`ptr[funcoffset]`) and delegates to `setup` with that
pointer as the target.  An out-of-bounds `funcoffset` reads unrelated memory
in C; the model returns `none` there, and the theorems assume the spec's
valid-index precondition. -/
def HardHook.setupInterface (h : HardHook) (unkn : Nat) (table : List Ptr)
    (funcoffset : Nat) (replacement : Ptr)
    (createStatus : MH_STATUS) (tramp : Ptr) (enableStatus : MH_STATUS) :
    HardHook × List Event :=
  let target := table.getD funcoffset none
  let r := h.setup target replacement createStatus tramp enableStatus
  (r.1, Event.log (setupInterfaceMsg unkn funcoffset) :: r.2)

/-- Method `HardHook::reset()`: sets `m_func`, `m_replacement` and `call` to `NULL`.
It makes no backend call, so its event list is empty. -/
def HardHook.reset (_h : HardHook) : HardHook × List Event :=
  (⟨none, none, none⟩, [])

/-- Method `HardHook::inject(force)`: returns immediately when `force` is false;
otherwise calls `MH_EnableHook((LPVOID) m_func)`, logging on a non-`MH_OK`
status. -/
def HardHook.inject (h : HardHook) (force : Bool) (status : MH_STATUS) :
    HardHook × List Event :=
  if !force then (h, [])
  else
    (h, [Event.enableHook h.m_func]
      ++ (if status = MH_OK then [] else [Event.log (injectFailMsg status)]))

/-- Method `HardHook::restore(force)`: returns immediately when `force` is false;
otherwise calls `MH_DisableHook((LPVOID) m_func)`, logging on a non-`MH_OK`
status. -/
def HardHook.restore (h : HardHook) (force : Bool) (status : MH_STATUS) :
    HardHook × List Event :=
  if !force then (h, [])
  else
    (h, [Event.disableHook h.m_func]
      ++ (if status = MH_OK then [] else [Event.log (restoreFailMsg status)]))

/-- The process-wide mutable state: the guard `minhook_init_once` (a `LONG`,
initially `0`). -/
structure GlobalState where
  minhook_init_once : Nat
deriving DecidableEq, Repr

/-- Function `EnsureMinHookInitialized()`: `InterlockedCompareExchange` transitions the
guard `0 → 1` and exactly the winning call runs `MH_Initialize()`. -/
def EnsureMinHookInitialized (g : GlobalState) : GlobalState × List Event :=
  if g.minhook_init_once = 0 then (⟨1⟩, [Event.initBackend])
  else (g, [])

/-- Constructor `HardHook::HardHook()`: ensures backend initialization and value-
initializes `m_func`, `m_replacement` and `call` to `NULL`. -/
def HardHook.ctorDefault (g : GlobalState) :
    HardHook × GlobalState × List Event :=
  let r := EnsureMinHookInitialized g
  (⟨none, none, none⟩, r.1, r.2)

/-- Constructor `HardHook::HardHook(func, replacement)`: ensures backend initialization,
assigns `m_func` and `m_replacement`, and calls `setup(func, replacement)`.
This constructor never initializes `call`; the indeterminate initial value of
that field is the explicit argument `initCall`. -/
def HardHook.ctorWithArgs (g : GlobalState) (func replacement : Ptr)
    (initCall : Ptr) (createStatus : MH_STATUS) (tramp : Ptr)
    (enableStatus : MH_STATUS) : HardHook × GlobalState × List Event :=
  let r := EnsureMinHookInitialized g
  let h0 : HardHook := ⟨func, replacement, initCall⟩
  let r2 := h0.setup func replacement createStatus tramp enableStatus
  (r2.1, r.1, r.2 ++ r2.2)

/-- One `HardHook` construction, with the backend oracle responses a
two-argument construction consumes. -/
inductive CtorCall where
  | mkDefault
  | mkWithArgs (func replacement initCall : Ptr) (createStatus : MH_STATUS)
      (tramp : Ptr) (enableStatus : MH_STATUS)
deriving Repr

/-- Run one construction against the process-wide state. -/
def applyCtor (g : GlobalState) : CtorCall → HardHook × GlobalState × List Event
  | CtorCall.mkDefault => HardHook.ctorDefault g
  | CtorCall.mkWithArgs func replacement initCall c t e =>
      HardHook.ctorWithArgs g func replacement initCall c t e

/-- Run a sequence of constructions, accumulating the event trace. -/
def runCtors (g : GlobalState) : List CtorCall → GlobalState × List Event
  | [] => (g, [])
  | c :: cs =>
      let r := applyCtor g c
      let rest := runCtors r.2.1 cs
      (rest.1, r.2.2 ++ rest.2)

/-- One operation on an existing `HardHook` object, with the backend oracle
responses it consumes. -/
inductive Op where
  | setup (func replacement : Ptr) (createStatus : MH_STATUS) (tramp : Ptr)
      (enableStatus : MH_STATUS)
  | setupInterface (unkn : Nat) (table : List Ptr) (funcoffset : Nat)
      (replacement : Ptr) (createStatus : MH_STATUS) (tramp : Ptr)
      (enableStatus : MH_STATUS)
  | inject (force : Bool) (status : MH_STATUS)
  | restore (force : Bool) (status : MH_STATUS)
  | reset
deriving DecidableEq, Repr

/-- Apply one operation to a hook. -/
def applyOp (h : HardHook) : Op → HardHook × List Event
  | Op.setup func replacement c t e => h.setup func replacement c t e
  | Op.setupInterface unkn table funcoffset replacement c t e =>
      h.setupInterface unkn table funcoffset replacement c t e
  | Op.inject force s => h.inject force s
  | Op.restore force s => h.restore force s
  | Op.reset => h.reset

/-- Apply a sequence of operations, accumulating the event trace. -/
def runOps (h : HardHook) : List Op → HardHook × List Event
  | [] => (h, [])
  | op :: ops =>
      let r := applyOp h op
      let rest := runOps r.1 ops
      (rest.1, r.2 ++ rest.2)

/-- The hook state produced by `HardHook::HardHook()`: all three fields
`NULL`. -/
def HardHook.init : HardHook := ⟨none, none, none⟩

/-- One scan step of `setupOkSinceReset`: a `setup` (direct or via
`setupInterface`) whose two sub-steps both returned `MH_OK` raises the flag,
`reset` clears it. -/
def setupOkStep (b : Bool) : Op → Bool
  | Op.setup _ _ c _ e => if c = MH_OK ∧ e = MH_OK then true else b
  | Op.setupInterface _ _ _ _ c _ e => if c = MH_OK ∧ e = MH_OK then true else b
  | Op.reset => false
  | _ => b

/-- The spec's reading of "a setup has completed successfully and reset has
not been called since", as a scan over the operation sequence. -/
def setupOkSinceReset (ops : List Op) : Bool :=
  ops.foldl setupOkStep false

/-- One scan step of `createOkSinceReset`: a `setup` (direct or via
`setupInterface`) whose `MH_CreateHook` step returned `MH_OK` raises the
flag, `reset` clears it. -/
def createOkStep (b : Bool) : Op → Bool
  | Op.setup _ _ c _ _ => if c = MH_OK then true else b
  | Op.setupInterface _ _ _ _ c _ _ => if c = MH_OK then true else b
  | Op.reset => false
  | _ => b

/-- What the code actually tracks: since the last `reset`, some `setup`'s
`MH_CreateHook` step returned `MH_OK` and wrote the backend's trampoline into
`call`.  Under the backend assumption that a successful create step yields a
non-null trampoline, this is equivalent to `call` being non-null. -/
def createOkSinceReset (ops : List Op) : Bool :=
  ops.foldl createOkStep false

/-- Whether the `call` member is non-null immediately after the two-argument
constructor: that constructor never initializes `call`, so when its create
step fails the field keeps its indeterminate initial value `initCall`, while
a successful create step overwrites it with the backend's (non-null)
trampoline. -/
def ctorWithArgsTrampFlag (initCall : Ptr) (c : MH_STATUS) : Bool :=
  if c = MH_OK then true else decide (initCall ≠ none)

/-- The backend oracle responses of an operation satisfy the spec-section-6
backend contract that a successful `createRedirection` yields a (non-null)
trampoline. -/
def OpTrampOk : Op → Prop
  | Op.setup _ _ c t _ => c = MH_OK → t ≠ none
  | Op.setupInterface _ _ _ _ c t _ => c = MH_OK → t ≠ none
  | _ => True

instance : DecidablePred OpTrampOk := by
  intro op
  cases op <;> simp [OpTrampOk] <;> infer_instance

/-- An `Op` that is `inject` or `restore` with `force = false`. -/
def NoForceOp : Op → Prop
  | Op.inject false _ => True
  | Op.restore false _ => True
  | _ => False

instance : DecidablePred NoForceOp := by
  intro op
  cases op with
  | inject force s => cases force <;> simp [NoForceOp] <;> infer_instance
  | restore force s => cases force <;> simp [NoForceOp] <;> infer_instance
  | _ => simp [NoForceOp]; infer_instance

/-- Number of `MH_Initialize()` calls recorded in an event trace. -/
def countInit : List Event → Nat
  | [] => 0
  | Event.initBackend :: evs => countInit evs + 1
  | _ :: evs => countInit evs

theorem countInit_append (l1 l2 : List Event) :
    countInit (l1 ++ l2) = countInit l1 + countInit l2 := by
  induction l1 with
  | nil => simp [countInit]
  | cons ev evs ih => cases ev <;> simp [countInit, ih] <;> omega

theorem countInit_setup (h : HardHook) (f r : Ptr) (c : MH_STATUS) (t : Ptr)
    (e : MH_STATUS) : countInit (h.setup f r c t e).2 = 0 := by
  by_cases hc : c = MH_OK <;> by_cases he : e = MH_OK <;>
    simp [HardHook.setup, hc, he, countInit]

theorem runOps_cons (h : HardHook) (op : Op) (ops : List Op) :
    (runOps h (op :: ops)).1 = (runOps (applyOp h op).1 ops).1 := by
  simp [runOps]

/-- Helper: `runOps` over a sequence of `force = false` `inject`/`restore`
calls leaves the hook unchanged and produces no events. -/
theorem runOps_noforce (ops : List Op) :
    ∀ h : HardHook, (∀ op ∈ ops, NoForceOp op) → runOps h ops = (h, []) := by
  induction ops with
  | nil => intro h _; rfl
  | cons op ops ih =>
    intro h H
    have hop : NoForceOp op := H op (List.mem_cons_self op ops)
    have hrest : ∀ o ∈ ops, NoForceOp o := fun o ho =>
      H o (List.mem_cons_of_mem op ho)
    have happ : applyOp h op = (h, []) := by
      cases op with
      | inject force s =>
        cases force with
        | false => rfl
        | true => exact absurd hop (by simp [NoForceOp])
      | restore force s =>
        cases force with
        | false => rfl
        | true => exact absurd hop (by simp [NoForceOp])
      | setup f r c t e => exact absurd hop (by simp [NoForceOp])
      | setupInterface u tb k r c t e => exact absurd hop (by simp [NoForceOp])
      | reset => exact absurd hop (by simp [NoForceOp])
    simp [runOps, happ, ih h hrest]

/-- C6: in any state, `reset()` sets `m_func`, `m_replacement` and `call` to
null and performs no backend operation (its event trace is empty, so the
backend's installed patch is untouched). -/
theorem C6_reset_clears_fields_no_backend (h : HardHook) :
    (h.reset).1.m_func = none ∧ (h.reset).1.m_replacement = none ∧
    (h.reset).1.call = none ∧ (h.reset).2 = [] := by
  simp [HardHook.reset]

/-- C7: in any state, `inject(false)` and `restore(false)` are no-ops — no
backend call, no field changed, no log — and any sequence of such calls
leaves the hook state identical. -/
theorem C7_noforce_noop (h : HardHook) (s s2 : MH_STATUS) (ops : List Op)
    (H : ∀ op ∈ ops, NoForceOp op) :
    h.inject false s = (h, []) ∧ h.restore false s2 = (h, []) ∧
    runOps h ops = (h, []) :=
  ⟨rfl, rfl, runOps_noforce ops h H⟩

/-- Witness for C7 at a concrete hook and a concrete two-call sequence. -/
theorem C7_noforce_noop_witness :
    runOps (HardHook.mk (some 1) (some 2) (some 3))
        [Op.inject false MH_ERROR_ENABLED, Op.restore false MH_UNKNOWN] =
      (HardHook.mk (some 1) (some 2) (some 3), []) :=
  (C7_noforce_noop (HardHook.mk (some 1) (some 2) (some 3)) MH_OK MH_OK
    [Op.inject false MH_ERROR_ENABLED, Op.restore false MH_UNKNOWN]
    (by decide)).2.2

/-- C8: in any state, `inject(true)` invokes `MH_EnableHook` on the stored
`m_func` and `restore(true)` invokes `MH_DisableHook` on the stored `m_func`;
each logs any non-`MH_OK` status via the diagnostic sink and changes no field
of the hook. -/
theorem C8_forced_toggle (h : HardHook) (s s2 : MH_STATUS) :
    (h.inject true s).1 = h ∧
    Event.enableHook h.m_func ∈ (h.inject true s).2 ∧
    (s ≠ MH_OK → Event.log (injectFailMsg s) ∈ (h.inject true s).2) ∧
    (h.restore true s2).1 = h ∧
    Event.disableHook h.m_func ∈ (h.restore true s2).2 ∧
    (s2 ≠ MH_OK → Event.log (restoreFailMsg s2) ∈ (h.restore true s2).2) := by
  by_cases hs : s = MH_OK <;> by_cases hs2 : s2 = MH_OK <;>
    simp [HardHook.inject, HardHook.restore, hs, hs2]

/-- Witness for C8 at a concrete hook with failing backend statuses. -/
theorem C8_forced_toggle_witness :
    Event.log (injectFailMsg MH_ERROR_NOT_CREATED) ∈
      ((HardHook.mk (some 4) (some 5) (some 6)).inject true
        MH_ERROR_NOT_CREATED).2 ∧
    Event.log (restoreFailMsg MH_ERROR_DISABLED) ∈
      ((HardHook.mk (some 4) (some 5) (some 6)).restore true
        MH_ERROR_DISABLED).2 :=
  ⟨(C8_forced_toggle (HardHook.mk (some 4) (some 5) (some 6))
      MH_ERROR_NOT_CREATED MH_ERROR_DISABLED).2.2.1 (by decide),
   (C8_forced_toggle (HardHook.mk (some 4) (some 5) (some 6))
      MH_ERROR_NOT_CREATED MH_ERROR_DISABLED).2.2.2.2.2 (by decide)⟩

/-- C9: `setup` never writes `m_func` or `m_replacement` — among the hook
operations only `reset` does, and among the constructors only the
two-argument one sets them — and `setup`'s `MH_EnableHook` sub-step is
applied to the stored `m_func` field; when that field differs from `setup`'s
`func` argument, no enable call on the argument occurs at all. -/
theorem C9_setup_enables_stale_field (h : HardHook) (f r : Ptr)
    (c : MH_STATUS) (t : Ptr) (e : MH_STATUS) (op : Op) (g : GlobalState)
    (ic : Ptr) (hop : op ≠ Op.reset) (hne : h.m_func ≠ f) :
    (h.setup f r c t e).1.m_func = h.m_func ∧
    (h.setup f r c t e).1.m_replacement = h.m_replacement ∧
    (applyOp h op).1.m_func = h.m_func ∧
    (applyOp h op).1.m_replacement = h.m_replacement ∧
    (HardHook.ctorWithArgs g f r ic c t e).1.m_func = f ∧
    (HardHook.ctorWithArgs g f r ic c t e).1.m_replacement = r ∧
    Event.enableHook h.m_func ∈ (h.setup f r c t e).2 ∧
    Event.enableHook f ∉ (h.setup f r c t e).2 := by
  refine ⟨rfl, rfl, ?_, ?_, rfl, rfl, ?_, ?_⟩
  · cases op with
    | setup f2 r2 c2 t2 e2 => rfl
    | setupInterface u tb k r2 c2 t2 e2 => rfl
    | inject force s => cases force <;> rfl
    | restore force s => cases force <;> rfl
    | reset => exact absurd rfl hop
  · cases op with
    | setup f2 r2 c2 t2 e2 => rfl
    | setupInterface u tb k r2 c2 t2 e2 => rfl
    | inject force s => cases force <;> rfl
    | restore force s => cases force <;> rfl
    | reset => exact absurd rfl hop
  · by_cases hc : c = MH_OK <;> by_cases he : e = MH_OK <;>
      simp [HardHook.setup, hc, he]
  · by_cases hc : c = MH_OK <;> by_cases he : e = MH_OK <;>
      simp [HardHook.setup, hc, he] <;> exact fun hEq => hne hEq.symm

/-- Witness for C9: a default-constructed hook (`m_func = NULL`) on which
`setup(some 5, some 7)` is called enables `NULL`, not `some 5`. -/
theorem C9_setup_enables_stale_field_witness :
    Event.enableHook none ∈
      (HardHook.init.setup (some 5) (some 7) MH_OK (some 9) MH_OK).2 ∧
    Event.enableHook (some 5) ∉
      (HardHook.init.setup (some 5) (some 7) MH_OK (some 9) MH_OK).2 :=
  ⟨(C9_setup_enables_stale_field HardHook.init (some 5) (some 7) MH_OK
      (some 9) MH_OK (Op.inject false MH_OK) ⟨0⟩ none (by decide)
      (by decide)).2.2.2.2.2.2.1,
   (C9_setup_enables_stale_field HardHook.init (some 5) (some 7) MH_OK
      (some 9) MH_OK (Op.inject false MH_OK) ⟨0⟩ none (by decide)
      (by decide)).2.2.2.2.2.2.2⟩

/-- C10: in `setup`, the `MH_EnableHook` sub-step runs unconditionally —
even when `MH_CreateHook` returned a non-success status — and each sub-step's
non-success status is reported independently via the diagnostic sink. -/
theorem C10_enable_unconditional (h : HardHook) (f r : Ptr) (c : MH_STATUS)
    (t : Ptr) (e : MH_STATUS) :
    Event.enableHook h.m_func ∈ (h.setup f r c t e).2 ∧
    (c ≠ MH_OK →
      Event.log (setupCreateFailMsg c) ∈ (h.setup f r c t e).2) ∧
    (e ≠ MH_OK →
      Event.log (setupEnableFailMsg e) ∈ (h.setup f r c t e).2) := by
  by_cases hc : c = MH_OK <;> by_cases he : e = MH_OK <;>
    simp [HardHook.setup, hc, he]

/-- Witness for C10: with both sub-steps failing, the enable call still
happens and both failure reports are logged. -/
theorem C10_enable_unconditional_witness :
    Event.enableHook none ∈
      (HardHook.init.setup (some 5) (some 7) MH_ERROR_ALREADY_CREATED
        (some 9) MH_ERROR_NOT_CREATED).2 ∧
    Event.log (setupCreateFailMsg MH_ERROR_ALREADY_CREATED) ∈
      (HardHook.init.setup (some 5) (some 7) MH_ERROR_ALREADY_CREATED
        (some 9) MH_ERROR_NOT_CREATED).2 ∧
    Event.log (setupEnableFailMsg MH_ERROR_NOT_CREATED) ∈
      (HardHook.init.setup (some 5) (some 7) MH_ERROR_ALREADY_CREATED
        (some 9) MH_ERROR_NOT_CREATED).2 :=
  ⟨(C10_enable_unconditional HardHook.init (some 5) (some 7)
      MH_ERROR_ALREADY_CREATED (some 9) MH_ERROR_NOT_CREATED).1,
   (C10_enable_unconditional HardHook.init (some 5) (some 7)
      MH_ERROR_ALREADY_CREATED (some 9) MH_ERROR_NOT_CREATED).2.1
     (by decide),
   (C10_enable_unconditional HardHook.init (some 5) (some 7)
      MH_ERROR_ALREADY_CREATED (some 9) MH_ERROR_NOT_CREATED).2.2
     (by decide)⟩

/-- C5: backend errors in `setup`, `inject(true)` and `restore(true)` surface
only as diagnostic-sink messages carrying the human-readable status
description; on full success nothing is logged; and no error information
reaches the caller — the resulting hook state does not depend on the enable
status, and `inject`/`restore` never change the hook state at all. -/
theorem C5_errors_logged_only (h : HardHook) (f r : Ptr) (c : MH_STATUS)
    (t : Ptr) (e s s2 : MH_STATUS) :
    (∀ m, Event.log m ∈ (h.setup f r c t e).2 →
      (c ≠ MH_OK ∧ m = setupCreateFailMsg c) ∨
      (e ≠ MH_OK ∧ m = setupEnableFailMsg e)) ∧
    (c = MH_OK → e = MH_OK → ∀ m, Event.log m ∉ (h.setup f r c t e).2) ∧
    (h.setup f r c t e).1 = (h.setup f r c t MH_OK).1 ∧
    ((h.inject true s).1 = h ∧
      ∀ m, Event.log m ∈ (h.inject true s).2 →
        s ≠ MH_OK ∧ m = injectFailMsg s) ∧
    ((h.restore true s2).1 = h ∧
      ∀ m, Event.log m ∈ (h.restore true s2).2 →
        s2 ≠ MH_OK ∧ m = restoreFailMsg s2) := by
  refine ⟨?_, ?_, rfl, ⟨rfl, ?_⟩, ⟨rfl, ?_⟩⟩
  · intro m hm
    by_cases hc : c = MH_OK <;> by_cases he : e = MH_OK <;>
      simp [HardHook.setup, hc, he] at hm <;> simp [hc, he, hm]
  · intro hc he m
    simp [HardHook.setup, hc, he]
  · intro m hm
    by_cases hs : s = MH_OK <;> simp [HardHook.inject, hs] at hm <;>
      simp [hs, hm]
  · intro m hm
    by_cases hs : s2 = MH_OK <;> simp [HardHook.restore, hs] at hm <;>
      simp [hs, hm]

/-- Witness for C5: at a concrete failing create status the logged message is
exactly the descriptive create-failure message, and on a fully successful
concrete `setup` a sample message is not logged. -/
theorem C5_errors_logged_only_witness :
    ((MH_ERROR_MEMORY_ALLOC ≠ MH_OK ∧
        setupCreateFailMsg MH_ERROR_MEMORY_ALLOC =
          setupCreateFailMsg MH_ERROR_MEMORY_ALLOC) ∨
      (MH_OK ≠ MH_OK ∧
        setupCreateFailMsg MH_ERROR_MEMORY_ALLOC =
          setupEnableFailMsg MH_OK)) ∧
    Event.log "sample" ∉
      (HardHook.init.setup (some 1) (some 2) MH_OK (some 3) MH_OK).2 :=
  ⟨(C5_errors_logged_only HardHook.init (some 1) (some 2)
      MH_ERROR_MEMORY_ALLOC (some 3) MH_OK MH_OK MH_OK).1
      (setupCreateFailMsg MH_ERROR_MEMORY_ALLOC) (by decide),
   (C5_errors_logged_only HardHook.init (some 1) (some 2) MH_OK (some 3)
      MH_OK MH_OK MH_OK).2.1 rfl rfl "sample"⟩

/-- C1 counterexample: for a default-constructed hook (`m_func = NULL`),
`setup(some 5, some 7)` invokes `MH_CreateHook` on the arguments but then
invokes `MH_EnableHook` on `NULL` — never on the target address `some 5`
that was passed as the setup argument, contradicting the claim. -/
theorem C1_counterexample :
    Event.createHook (some 5) (some 7) ∈
      (HardHook.init.setup (some 5) (some 7) MH_OK (some 9) MH_OK).2 ∧
    Event.enableHook (some 5) ∉
      (HardHook.init.setup (some 5) (some 7) MH_OK (some 9) MH_OK).2 ∧
    Event.enableHook none ∈
      (HardHook.init.setup (some 5) (some 7) MH_OK (some 9) MH_OK).2 := by
  decide

/-- C1 amended: for every call to `setup(target, replacement)`, in every
hook state, the operation first invokes `MH_CreateHook` on
`(target, replacement)` — storing the returned trampoline in `call` whenever
the create step succeeds — and then invokes `MH_EnableHook` on the hook's
stored `m_func` field; that enable call lands on the setup argument exactly
in the states where the field already equals it (as after the two-argument
constructor). -/
theorem C1_setup_create_then_enable (h : HardHook) (f r : Ptr)
    (c : MH_STATUS) (t : Ptr) (e : MH_STATUS) :
    (h.setup f r c t e).2.head? = some (Event.createHook f r) ∧
    Event.enableHook h.m_func ∈ (h.setup f r c t e).2.tail ∧
    (c = MH_OK → (h.setup f r c t e).1.call = t) ∧
    (h.m_func = f → Event.enableHook f ∈ (h.setup f r c t e).2) := by
  refine ⟨rfl, ?_, ?_, ?_⟩
  · by_cases hc : c = MH_OK <;> by_cases he : e = MH_OK <;>
      simp [HardHook.setup, hc, he]
  · intro hc
    subst hc
    simp [HardHook.setup]
  · intro hf
    subst hf
    by_cases hc : c = MH_OK <;> by_cases he : e = MH_OK <;>
      simp [HardHook.setup, hc, he]

/-- Witness for the amended C1, discharging both conditional conjuncts: a
default-constructed hook (stale `m_func = NULL`, differing from the setup
argument) has its enable step land on `NULL` and still stores the
trampoline, while a hook whose `m_func` already holds the target enables the
target. -/
theorem C1_setup_create_then_enable_witness :
    Event.enableHook none ∈
      (HardHook.init.setup (some 5) (some 7) MH_OK (some 9) MH_OK).2.tail ∧
    (HardHook.init.setup (some 5) (some 7) MH_OK (some 9) MH_OK).1.call =
      some 9 ∧
    Event.enableHook (some 5) ∈
      ((HardHook.mk (some 5) (some 6) none).setup (some 5) (some 7) MH_OK
        (some 9) MH_OK).2 :=
  ⟨(C1_setup_create_then_enable HardHook.init (some 5) (some 7) MH_OK
      (some 9) MH_OK).2.1,
   (C1_setup_create_then_enable HardHook.init (some 5) (some 7) MH_OK
      (some 9) MH_OK).2.2.1 rfl,
   (C1_setup_create_then_enable (HardHook.mk (some 5) (some 6) none)
      (some 5) (some 7) MH_OK (some 9) MH_OK).2.2.2 rfl⟩

/-- C4: `setupInterface(object, slotIndex, replacement)` with a valid slot
index first emits the diagnostic record naming the object address and slot
index, then delegates to `setup` with exactly the function pointer stored at
that slot of the object's dispatch table as the target; no other slot is
read — two tables agreeing at the slot yield identical behavior. -/
theorem C4_setupInterface_slot (h : HardHook) (unkn : Nat) (table : List Ptr)
    (k : Nat) (r : Ptr) (c : MH_STATUS) (t : Ptr) (e : MH_STATUS)
    (hk : k < table.length) :
    (h.setupInterface unkn table k r c t e).2.head? =
      some (Event.log (setupInterfaceMsg unkn k)) ∧
    (h.setupInterface unkn table k r c t e).2.tail =
      (h.setup (table.get ⟨k, hk⟩) r c t e).2 ∧
    (h.setupInterface unkn table k r c t e).1 =
      (h.setup (table.get ⟨k, hk⟩) r c t e).1 ∧
    (∀ table2 : List Ptr, table2.getD k none = table.getD k none →
      h.setupInterface unkn table2 k r c t e =
        h.setupInterface unkn table k r c t e) := by
  have hget : table.getD k none = table.get ⟨k, hk⟩ := by
    simp [List.getD_eq_getElem?_getD, List.getElem?_eq_getElem hk]
  refine ⟨rfl, ?_, ?_, ?_⟩
  · show (h.setup (table.getD k none) r c t e).2 =
      (h.setup (table.get ⟨k, hk⟩) r c t e).2
    rw [hget]
  · show (h.setup (table.getD k none) r c t e).1 =
      (h.setup (table.get ⟨k, hk⟩) r c t e).1
    rw [hget]
  · intro table2 h2
    unfold HardHook.setupInterface
    rw [h2]

/-- Witness for C4 on a concrete three-slot dispatch table: slot 1 is read
and hooked. -/
theorem C4_setupInterface_slot_witness :
    (HardHook.init.setupInterface 100 [some 3, some 4, some 5] 1 (some 7)
        MH_OK (some 9) MH_OK).1 =
      (HardHook.init.setup (some 4) (some 7) MH_OK (some 9) MH_OK).1 ∧
    (HardHook.init.setupInterface 100 [some 3, some 4, some 5] 1 (some 7)
        MH_OK (some 9) MH_OK).2.head? =
      some (Event.log (setupInterfaceMsg 100 1)) :=
  ⟨(C4_setupInterface_slot HardHook.init 100 [some 3, some 4, some 5] 1
      (some 7) MH_OK (some 9) MH_OK (by decide)).2.2.1,
   (C4_setupInterface_slot HardHook.init 100 [some 3, some 4, some 5] 1
      (some 7) MH_OK (some 9) MH_OK (by decide)).1⟩

/-- Helper: once the guard is set, a construction makes no `MH_Initialize`
call and leaves the guard set. -/
theorem applyCtor_guard_set (c : CtorCall) :
    (applyCtor ⟨1⟩ c).2.1 = ⟨1⟩ ∧ countInit (applyCtor ⟨1⟩ c).2.2 = 0 := by
  cases c with
  | mkDefault => exact ⟨rfl, rfl⟩
  | mkWithArgs f r ic cs t es =>
    refine ⟨rfl, ?_⟩
    show countInit ([] ++ ((HardHook.mk f r ic).setup f r cs t es).2) = 0
    rw [List.nil_append]
    exact countInit_setup (HardHook.mk f r ic) f r cs t es

/-- Helper: once the guard is set, a whole sequence of constructions makes no
`MH_Initialize` call. -/
theorem runCtors_guard_set (cs : List CtorCall) :
    (runCtors ⟨1⟩ cs).1 = ⟨1⟩ ∧ countInit (runCtors ⟨1⟩ cs).2 = 0 := by
  induction cs with
  | nil => exact ⟨rfl, rfl⟩
  | cons c cs ih =>
    have hc := applyCtor_guard_set c
    constructor
    · show (runCtors (applyCtor ⟨1⟩ c).2.1 cs).1 = ⟨1⟩
      rw [hc.1]
      exact ih.1
    · show countInit ((applyCtor ⟨1⟩ c).2.2 ++ (runCtors (applyCtor ⟨1⟩ c).2.1 cs).2) = 0
      rw [countInit_append, hc.1, hc.2, ih.2]

/-- Helper: the first construction from the pristine guard makes exactly one
`MH_Initialize` call and sets the guard. -/
theorem applyCtor_first (c : CtorCall) :
    (applyCtor ⟨0⟩ c).2.1 = ⟨1⟩ ∧ countInit (applyCtor ⟨0⟩ c).2.2 = 1 ∧
    Event.initBackend ∈ (applyCtor ⟨0⟩ c).2.2 := by
  cases c with
  | mkDefault => exact ⟨rfl, rfl, List.mem_singleton.mpr rfl⟩
  | mkWithArgs f r ic cs t es =>
    refine ⟨rfl, ?_, ?_⟩
    · show countInit ([Event.initBackend] ++
        ((HardHook.mk f r ic).setup f r cs t es).2) = 1
      rw [countInit_append, countInit_setup]
      rfl
    · show Event.initBackend ∈ [Event.initBackend] ++
        ((HardHook.mk f r ic).setup f r cs t es).2
      exact List.mem_append_left _ (List.mem_singleton.mpr rfl)

/-- C2: starting from the pristine process state (`minhook_init_once = 0`),
any nonempty sequence of `HardHook` constructions records exactly one
`MH_Initialize` call; the first construction makes it and the remaining
constructions make none. -/
theorem C2_initialize_exactly_once (c : CtorCall) (cs : List CtorCall) :
    countInit (runCtors ⟨0⟩ (c :: cs)).2 = 1 ∧
    Event.initBackend ∈ (applyCtor ⟨0⟩ c).2.2 ∧
    countInit (runCtors ⟨1⟩ cs).2 = 0 := by
  have hfirst := applyCtor_first c
  refine ⟨?_, hfirst.2.2, (runCtors_guard_set cs).2⟩
  show countInit ((applyCtor ⟨0⟩ c).2.2 ++
    (runCtors (applyCtor ⟨0⟩ c).2.1 cs).2) = 1
  rw [countInit_append, hfirst.2.1, hfirst.1, (runCtors_guard_set cs).2]

/-- C3 counterexample: from a default-constructed hook, a single `setup`
whose `MH_CreateHook` step succeeds but whose `MH_EnableHook` step fails —
a reported failure, so not a successfully completed setup — still leaves
`call` (the trampoline) non-null, contradicting the claimed equivalence. -/
theorem C3_counterexample :
    (runOps HardHook.init
        [Op.setup (some 5) (some 7) MH_OK (some 9) MH_ERROR_ENABLED]).1.call
      ≠ none ∧
    setupOkSinceReset
      [Op.setup (some 5) (some 7) MH_OK (some 9) MH_ERROR_ENABLED] = false :=
  ⟨by decide, by decide⟩

/-- Helper: the trampoline field is non-null exactly when the scan flag of
`createOkStep` says some create sub-step has succeeded since the last reset,
provided every successful create step returned a non-null trampoline. -/
theorem runOps_call_iff_createOk (ops : List Op) :
    ∀ (h : HardHook) (b : Bool), (h.call ≠ none ↔ b = true) →
      (∀ op ∈ ops, OpTrampOk op) →
      ((runOps h ops).1.call ≠ none ↔ ops.foldl createOkStep b = true) := by
  induction ops with
  | nil => intro h b hb _; simpa [runOps] using hb
  | cons op ops ih =>
    intro h b hb H
    have hop : OpTrampOk op := H op (List.mem_cons_self op ops)
    have hrest : ∀ o ∈ ops, OpTrampOk o := fun o ho =>
      H o (List.mem_cons_of_mem op ho)
    rw [runOps_cons, List.foldl_cons]
    refine ih (applyOp h op).1 (createOkStep b op) ?_ hrest
    cases op with
    | setup f r c t e =>
      by_cases hc : c = MH_OK
      · have ht : t ≠ none := hop hc
        simp [applyOp, HardHook.setup, createOkStep, hc, ht]
      · simpa [applyOp, HardHook.setup, createOkStep, hc] using hb
    | setupInterface u tb k r c t e =>
      by_cases hc : c = MH_OK
      · have ht : t ≠ none := hop hc
        simp [applyOp, HardHook.setupInterface, HardHook.setup, createOkStep,
          hc, ht]
      · simpa [applyOp, HardHook.setupInterface, HardHook.setup,
          createOkStep, hc] using hb
    | inject force s =>
      cases force <;> simpa [applyOp, HardHook.inject, createOkStep] using hb
    | restore force s =>
      cases force <;> simpa [applyOp, HardHook.restore, createOkStep] using hb
    | reset => simp [applyOp, HardHook.reset, createOkStep]

/-- C3 amended: over every reachable state — rooted at either constructor
and followed by any operation sequence — and assuming the backend returns a
non-null trampoline whenever a create step succeeds, the trampoline field is
non-null if and only if the `createOkStep` scan of the history says so.  For
a default-constructed hook that means: some setup's create-redirection
sub-step has succeeded and reset has not been called since (success of the
enable sub-step is irrelevant).  For a two-argument-constructed hook the
scan is seeded by the construction itself, whose never-initialized `call`
member starts non-null exactly when the constructor's create step succeeded
or the field's indeterminate initial value was already non-null. -/
theorem C3_trampoline_iff_createOk (ops : List Op) (g : GlobalState)
    (f r initCall : Ptr) (c : MH_STATUS) (t : Ptr) (e : MH_STATUS)
    (H : ∀ op ∈ ops, OpTrampOk op) (Hc : c = MH_OK → t ≠ none) :
    ((runOps (HardHook.ctorDefault g).1 ops).1.call ≠ none ↔
      createOkSinceReset ops = true) ∧
    ((runOps (HardHook.ctorWithArgs g f r initCall c t e).1 ops).1.call ≠
        none ↔
      ops.foldl createOkStep (ctorWithArgsTrampFlag initCall c) = true) := by
  constructor
  · exact runOps_call_iff_createOk ops (HardHook.ctorDefault g).1 false
      (by simp [HardHook.ctorDefault]) H
  · refine runOps_call_iff_createOk ops
      (HardHook.ctorWithArgs g f r initCall c t e).1
      (ctorWithArgsTrampFlag initCall c) ?_ H
    by_cases hc : c = MH_OK
    · have ht := Hc hc
      simp [HardHook.ctorWithArgs, HardHook.setup, ctorWithArgsTrampFlag,
        hc, ht]
    · simp [HardHook.ctorWithArgs, HardHook.setup, ctorWithArgsTrampFlag, hc]

/-- Witness for the amended C3: a two-argument construction whose create
step failed keeps a non-null indeterminate `call` value — so the trampoline
field is non-null although no create step ever succeeded — while a
default-constructed hook's trampoline becomes non-null through a setup whose
create step succeeded even though its enable step failed. -/
theorem C3_trampoline_iff_createOk_witness :
    (runOps (HardHook.ctorWithArgs ⟨0⟩ (some 5) (some 7) (some 42)
        MH_ERROR_ALREADY_CREATED (some 9) MH_ERROR_NOT_CREATED).1
      [Op.inject true MH_OK]).1.call ≠ none ∧
    (runOps (HardHook.ctorDefault ⟨0⟩).1
        [Op.setup (some 5) (some 7) MH_OK (some 9)
          MH_ERROR_ENABLED]).1.call ≠ none :=
  ⟨(C3_trampoline_iff_createOk [Op.inject true MH_OK] ⟨0⟩ (some 5) (some 7)
      (some 42) MH_ERROR_ALREADY_CREATED (some 9) MH_ERROR_NOT_CREATED
      (by decide) (by decide)).2.mpr (by decide),
   (C3_trampoline_iff_createOk
      [Op.setup (some 5) (some 7) MH_OK (some 9) MH_ERROR_ENABLED] ⟨0⟩
      (some 5) (some 7) (some 42) MH_ERROR_ALREADY_CREATED (some 9)
      MH_ERROR_NOT_CREATED (by decide) (by decide)).1.mpr (by decide)⟩
